import Mathlib

/-!
Verification of the vlc-remote integration (two revisions: a synchronous
variant in `__init__.py`, modelled in namespace `Sync`, and an asynchronous
variant in `custom_components/vlc-remote/media_player.py`, modelled in
namespace `Mp`).  The raw VLC status document (the output of
`xmltodict.parse`) is modelled as the inductive `XVal`; Python's
exception behaviour (`int(None)` raising `TypeError`, bare `except`
clauses, attribute errors) is modelled explicitly with `Except PyErr`.
-/

namespace VlcRemote

/-- A decoded XML-as-mapping value, as produced by `xmltodict.parse`:
nested dictionaries, lists, and text nodes. -/
inductive XVal where
  | str : String → XVal
  | dict : List (String × XVal) → XVal
  | list : List XVal → XVal
deriving Repr

/-- Python exception kinds that the source code can raise internally. -/
inductive PyErr where
  | typeError
  | valueError
  | keyError
  | attributeError
  | nameError
  | netError
  | parseError
deriving Repr, DecidableEq

/-- Home Assistant player-state constants used by both revisions:
`STATE_PLAYING`, `STATE_PAUSED`, `STATE_IDLE`. -/
inductive HAState where
  | playing
  | paused
  | idle
deriving Repr, DecidableEq

/-- A raw status mapping (a Python dict at the top level). -/
def Status := List (String × XVal)

/-- Python `d.get(k)`: `None` when the key is absent. -/
def statusGet (k : String) (status : Status) : Option XVal :=
  List.lookup k status

/-- Python `v == "s"` where `v` came from `.get(...)`: true exactly when the
value is present and is the string `s` (comparison with `None` or a
non-string is `False`, never an error). -/
def isStrOpt (v : Option XVal) (s : String) : Bool :=
  match v with
  | some (.str t) => t == s
  | _ => false

/-- Python `m != {}`, specialised to the test made by `media_artist`:
false exactly when `m` is the empty dict. -/
def isEmptyDict : XVal → Bool
  | .dict [] => true
  | _ => false

/-- Python iteration over an `XVal`: a list yields its elements, a dict
yields its keys (as strings), a string yields its one-character
substrings.  All three `XVal` shapes are iterable in Python. -/
def pyIter : XVal → List XVal
  | .list xs => xs
  | .dict d => d.map (fun p => XVal.str p.1)
  | .str s => s.toList.map (fun c => XVal.str (String.mk [c]))

/-- Decimal-digit accumulator for `strToInt?`. -/
def decNat? : List Char → Nat → Option Nat
  | [], acc => some acc
  | c :: rest, acc =>
      if c.isDigit then decNat? rest (10 * acc + (c.toNat - 48)) else none

/-- Python `int` applied to a string: an optionally `-`-signed run of
decimal digits parses, anything else is rejected. -/
def strToInt? (s : String) : Option Int :=
  match s.toList with
  | [] => none
  | '-' :: rest =>
      if rest.isEmpty then none
      else (decNat? rest 0).map (fun n => -(n : Int))
  | cs => (decNat? cs 0).map (fun n => (n : Int))

/-- Python `int(x)` applied to the result of `status.get(k)`:
`int(None)` raises `TypeError`, `int` of a decimal string succeeds,
`int` of a non-numeric string raises `ValueError`, `int` of a dict or
list raises `TypeError`. -/
def pyInt : Option XVal → Except PyErr Int
  | none => .error .typeError
  | some (.str s) =>
      match strToInt? s with
      | some n => .ok n
      | none => .error .valueError
  | some (.dict _) => .error .typeError
  | some (.list _) => .error .typeError

/-- Python `int(q)` on a number: truncation toward zero. -/
def pyTrunc (q : ℚ) : Int :=
  if 0 ≤ q then ⌊q⌋ else ⌈q⌉

/-- One iteration of the metadata loop shared by both revisions:
`if info.get("@name") == "meta": self._media_metadata = info["info"]`.
A non-dict item raises `AttributeError` at `.get`; a matching item
without an `"info"` key raises `KeyError`. -/
def metaStep (cur : XVal) (item : XVal) : Except PyErr XVal :=
  match item with
  | .dict d =>
      if isStrOpt (List.lookup "@name" d) "meta" then
        match List.lookup "info" d with
        | some v => .ok v
        | none => .error .keyError
      else .ok cur
  | _ => .error .attributeError

/-- The metadata loop body: iterate the category items; an exception
aborts the loop but keeps assignments already made (the bare
`except: pass` swallows the error). -/
def metaFold (cur : XVal) : List XVal → XVal
  | [] => cur
  | item :: rest =>
      match metaStep cur item with
      | .ok cur' => metaFold cur' rest
      | .error _ => cur

/-- The guarded metadata block of `update` (identical in both revisions):
`if "information" in self._status: try: for info in
self._status["information"]["category"]: ... except: pass`. -/
def metaBlock (curMeta : XVal) (status : Status) : XVal :=
  match statusGet "information" status with
  | none => curMeta
  | some infoVal =>
      match infoVal with
      | .dict d =>
          match List.lookup "category" d with
          | none => curMeta
          | some cat => metaFold curMeta (pyIter cat)
      | _ => curMeta

namespace Sync

/-- The normalized entity state of `VlcServer` in `__init__.py`:
fields start as `None` (`Option.none`) except `_status = {}` and
`_media_metadata = {}`. -/
structure VlcState where
  status : Status
  volume : Option ℚ
  muted : Option Bool
  state : Option HAState
  media_position : Option Int
  media_duration : Option Int
  media_metadata : XVal

/-- The state after `VlcServer.__init__`. -/
def VlcState.init : VlcState :=
  ⟨[], none, none, none, none, none, .dict []⟩

/-- `VlcServer.update` of `__init__.py`, with Python's in-place mutation
made explicit: the returned state holds every assignment executed before
the first uncaught exception, and the second component is that exception
(`none` when update ran to completion).  The state mapping defaults any
unmatched or absent `state` value to `STATE_IDLE`; position, duration
and volume are read with `int(status.get(...))`, which raises on a
missing key. -/
def update (st : VlcState) (status : Status) : VlcState × Option PyErr :=
  let st := { st with
    status := status,
    media_metadata := metaBlock st.media_metadata status }
  let st := { st with
    state := some (if isStrOpt (statusGet "state" status) "playing" then .playing
      else if isStrOpt (statusGet "state" status) "paused" then .paused
      else .idle) }
  match pyInt (statusGet "time" status) with
  | .error e => (st, some e)
  | .ok t =>
    let st := { st with media_position := some t }
    match pyInt (statusGet "length" status) with
    | .error e => (st, some e)
    | .ok l =>
      let st := { st with media_duration := some l }
      match pyInt (statusGet "volume" status) with
      | .error e => (st, some e)
      | .ok v =>
        ({ st with volume := some ((v : ℚ) / 256), muted := some (v == 0) }, none)

/-- The body of the `try` in `VlcServer.media_title` of `__init__.py`.
Its first statement reads `self._media.metadata`, but the object has no
attribute `_media` (only `_media_metadata`), so an `AttributeError` is
raised before anything else runs. -/
def mediaTitleTryBody (_st : VlcState) : Except PyErr XVal :=
  .error .attributeError

/-- `VlcServer.media_title` of `__init__.py`: `filename = "None"`, a
`try` whose body raises, and a bare `except` returning `filename`. -/
def media_title (st : VlcState) : XVal :=
  match mediaTitleTryBody st with
  | .ok t => t
  | .error _ => .str "None"

/-- One iteration of the loop in `media_artist`:
`if item["@name"] == "showName": artist = item["#text"]`.
Indexing a non-dict raises `TypeError`; a dict missing the key raises
`KeyError`. -/
def artistStep (acc : Option XVal) (item : XVal) : Except PyErr (Option XVal) :=
  match item with
  | .dict d =>
      match List.lookup "@name" d with
      | none => .error .keyError
      | some nv =>
          if isStrOpt (some nv) "showName" then
            match List.lookup "#text" d with
            | none => .error .keyError
            | some t => .ok (some t)
          else .ok acc
  | .str _ => .error .typeError
  | .list _ => .error .typeError

/-- The loop of `media_artist` over the metadata items. -/
def artistFold (acc : Option XVal) : List XVal → Except PyErr (Option XVal)
  | [] => .ok acc
  | item :: rest =>
      match artistStep acc item with
      | .ok acc' => artistFold acc' rest
      | .error e => .error e

/-- The body of the `try` in `VlcServer.media_artist` of `__init__.py`:
when `self._media_metadata != {}` the loop runs; `return artist` raises
`NameError` when no `showName` item assigned the local variable. -/
def mediaArtistTryBody (st : VlcState) : Except PyErr XVal :=
  if isEmptyDict st.media_metadata then .error .nameError
  else
    match artistFold none (pyIter st.media_metadata) with
    | .error e => .error e
    | .ok none => .error .nameError
    | .ok (some v) => .ok v

/-- `VlcServer.media_artist` of `__init__.py`: the `try` body above with
a bare `except` returning the string `"None"`. -/
def media_artist (st : VlcState) : XVal :=
  match mediaArtistTryBody st with
  | .ok v => v
  | .error _ => .str "None"

/-- `VlcServer.mute_volume`: issues `volume&val=0` (muting) or
`volume&val=256` (unmuting) and optimistically sets `self._muted`.
The command string sent through `fetch_data` is returned alongside the
new state. -/
def mute_volume (st : VlcState) (mute : Bool) : VlcState × String :=
  ({ st with muted := some mute },
   "volume&val=" ++ (if mute then "0" else "256"))

/-- `VlcServer.set_volume_level`: issues `volume&val={int(volume*256)}`
(Python `int` truncates) and optimistically sets `self._volume`. -/
def set_volume_level (st : VlcState) (volume : ℚ) : VlcState × String :=
  ({ st with volume := some volume },
   "volume&val=" ++ toString (pyTrunc (volume * 256)))

/-- `VlcServer.media_play` of `__init__.py`: sends `pl_pause` (a toggle)
and optimistically sets the state to `STATE_PLAYING`. -/
def media_play (st : VlcState) : VlcState × String :=
  ({ st with state := some .playing }, "pl_pause")

/-- `VlcServer.media_pause` of `__init__.py`: sends `pl_pause` and
optimistically sets the state to `STATE_PAUSED`. -/
def media_pause (st : VlcState) : VlcState × String :=
  ({ st with state := some .paused }, "pl_pause")

/-- `VlcServer.media_stop` of `__init__.py`: sends `pl_stop` and
optimistically sets the state to `STATE_IDLE`. -/
def media_stop (st : VlcState) : VlcState × String :=
  ({ st with state := some .idle }, "pl_stop")

/-- The URL built by `fetch_data` in `__init__.py`.  The template in the
source is `"http://{}:{}/requests.status.xml"` — note the dot between
`requests` and `status.xml`. -/
def fetchUrl (host port : String) : Option String → String
  | none => "http://" ++ host ++ ":" ++ port ++ "/requests.status.xml"
  | some c =>
      "http://" ++ host ++ ":" ++ port ++ "/requests.status.xml?command=" ++ c

end Sync

/-- The outcome of `xmltodict.parse` on a response body: either the
parse raises, or it yields a top-level mapping `doc`. -/
inductive ParseOutcome where
  | malformed
  | parsed (doc : Status)

/-- The outcome of `requests.get`: either a network exception, or a
response carrying an HTTP status code and a body. -/
inductive HttpOutcome where
  | exn
  | resp (code : Nat) (body : ParseOutcome)

/-- The first `try` block of `fetch_data` (identical control flow in
both revisions).  On a non-200 response the logging call reads
`req.status`, an attribute a `requests` response does not have, so that
branch itself raises `AttributeError` inside the `try`.  On a parse
failure `xmltodict.parse` raises.  On success the block evaluates
`xmltodict.parse(...).get("root")`, which is `None` when the top-level
key is not `"root"`. -/
def fetchTryBody (o : HttpOutcome) : Except PyErr (Option XVal) :=
  match o with
  | .exn => .error .netError
  | .resp code body =>
      if code ≠ 200 then .error .attributeError
      else
        match body with
        | .malformed => .error .parseError
        | .parsed doc => .ok (statusGet "root" doc)

/-- `VlcServer.fetch_data` (both revisions): the `except Exception`
handler turns every exception from the first block into `return {}`;
the second `try: return data` cannot raise, so `data` is returned
as-is — including the `None` produced when the `root` key is absent.
`none` models Python `None`; `some (.dict [])` models `{}`. -/
def fetch_data (o : HttpOutcome) : Option XVal :=
  match fetchTryBody o with
  | .error _ => some (.dict [])
  | .ok data => data

namespace Mp

/-- The normalized entity state of `VlcServer` in `media_player.py`.
There `self._state` is initialised to `{}` and only ever reassigned to
a Home Assistant state constant; `none` models the initial `{}`. -/
structure VlcState where
  volume : Option ℚ
  muted : Option Bool
  state : Option HAState
  media_position : Option Int
  media_duration : Option Int
  media_metadata : XVal

/-- The state after `VlcServer.__init__` of `media_player.py`. -/
def VlcState.init : VlcState :=
  ⟨none, none, none, none, none, .dict []⟩

/-- `VlcServer.update` of `media_player.py`.  Unlike the synchronous
variant it has no `else` branch in the state mapping: `"playing"`,
`"paused"` and `"stopped"` are mapped, and any other or absent value
leaves `self._state` unchanged.  Position is read from the `position`
key (not `time`); the `int(...)` conversions raise on a missing key
exactly as in the synchronous variant. -/
def update (st : VlcState) (status : Status) : VlcState × Option PyErr :=
  let st := { st with media_metadata := metaBlock st.media_metadata status }
  let st := { st with
    state := if isStrOpt (statusGet "state" status) "playing" then some .playing
      else if isStrOpt (statusGet "state" status) "paused" then some .paused
      else if isStrOpt (statusGet "state" status) "stopped" then some .idle
      else st.state }
  match pyInt (statusGet "position" status) with
  | .error e => (st, some e)
  | .ok t =>
    let st := { st with media_position := some t }
    match pyInt (statusGet "length" status) with
    | .error e => (st, some e)
    | .ok l =>
      let st := { st with media_duration := some l }
      match pyInt (statusGet "volume" status) with
      | .error e => (st, some e)
      | .ok v =>
        ({ st with volume := some ((v : ℚ) / 256), muted := some (v == 0) }, none)

/-- The URL built by `fetch_data` in `media_player.py`:
`"http://{}:{}/requests/status.xml"`, optionally with `?command={}`. -/
def fetchUrl (host port : String) : Option String → String
  | none => "http://" ++ host ++ ":" ++ port ++ "/requests/status.xml"
  | some c =>
      "http://" ++ host ++ ":" ++ port ++ "/requests/status.xml?command=" ++ c

/-- `VlcServer.media_play` of `media_player.py`: sends `pl_play` and
optimistically sets the state to `STATE_PLAYING`. -/
def media_play (st : VlcState) : VlcState × String :=
  ({ st with state := some .playing }, "pl_play")

/-- `VlcServer.media_pause` of `media_player.py`: sends `pl_pause` and
optimistically sets the state to `STATE_PAUSED`. -/
def media_pause (st : VlcState) : VlcState × String :=
  ({ st with state := some .paused }, "pl_pause")

/-- `VlcServer.media_stop` of `media_player.py`: sends `pl_stop` and
optimistically sets the state to `STATE_IDLE`. -/
def media_stop (st : VlcState) : VlcState × String :=
  ({ st with state := some .idle }, "pl_stop")

end Mp

/-- A full well-formed status: playing, time 10, length 20, volume 128. -/
def demoStatus : Status :=
  [("state", .str "playing"), ("time", .str "10"), ("length", .str "20"),
   ("volume", .str "128")]

/-- The metadata `info` list from the specification's metadata example:
a title entry `Song A` and an artist entry `Artist B`. -/
def metaInfoDemo : XVal :=
  .list [ .dict [("@name", .str "title"), ("#text", .str "Song A")],
          .dict [("@name", .str "artist"), ("#text", .str "Artist B")] ]

/-- A status carrying the specification's metadata example inside an
`information.category` list, together with the numeric fields needed for
`update` to run to completion. -/
def metaStatusDemo : Status :=
  [("state", .str "playing"), ("time", .str "10"), ("length", .str "20"),
   ("volume", .str "128"),
   ("information",
    .dict [("category",
            .list [ .dict [("@name", .str "meta"), ("info", metaInfoDemo)] ])])]

/-- A status whose raw `state` is an unrecognised string, with the
numeric fields the asynchronous variant reads. -/
def fooStatusMp : Status :=
  [("state", .str "foo"), ("position", .str "1"), ("length", .str "2"),
   ("volume", .str "3")]

/-- The synchronous entity state after one update on `demoStatus`. -/
def demoUpdated : Sync.VlcState :=
  (Sync.update Sync.VlcState.init demoStatus).1

/-- How the synchronous `update` maps the raw `state` value, read off
from the if/elif/else chain in `__init__.py`. -/
def syncStateOf (status : Status) : HAState :=
  if isStrOpt (statusGet "state" status) "playing" then .playing
  else if isStrOpt (statusGet "state" status) "paused" then .paused
  else .idle

/-- The `state` field written by the synchronous `update` is
`syncStateOf status`, whatever the prior entity state and wherever a
later `int(...)` conversion raises. -/
theorem sync_update_state (st : Sync.VlcState) (status : Status) :
    (Sync.update st status).1.state = some (syncStateOf status) := by
  unfold Sync.update syncStateOf
  cases pyInt (statusGet "time" status) with
  | error e => rfl
  | ok t =>
    cases pyInt (statusGet "length" status) with
    | error e => rfl
    | ok l =>
      cases pyInt (statusGet "volume" status) with
      | error e => rfl
      | ok v => rfl

/-- How the asynchronous `update` maps the raw `state` value: no `else`
branch, so an unmatched value keeps the prior state. -/
def mpStateOf (prior : Option HAState) (status : Status) : Option HAState :=
  if isStrOpt (statusGet "state" status) "playing" then some .playing
  else if isStrOpt (statusGet "state" status) "paused" then some .paused
  else if isStrOpt (statusGet "state" status) "stopped" then some .idle
  else prior

/-- The `state` field written by the asynchronous `update` is
`mpStateOf st.state status`. -/
theorem mp_update_state (st : Mp.VlcState) (status : Status) :
    (Mp.update st status).1.state = mpStateOf st.state status := by
  unfold Mp.update mpStateOf
  cases pyInt (statusGet "position" status) with
  | error e => rfl
  | ok t =>
    cases pyInt (statusGet "length" status) with
    | error e => rfl
    | ok l =>
      cases pyInt (statusGet "volume" status) with
      | error e => rfl
      | ok v => rfl

/-- C1: the claim says an update on a status missing the
`time`/`length`/`volume` keys does not raise and yields position 0,
duration 0, volume 0.0, muted true.  The code instead evaluates
`int(status.get("time"))`, i.e. `int(None)`, which raises `TypeError`;
position, duration, volume and muted are left unassigned (`None`).
This theorem evaluates the synchronous `update` at the empty status
mapping (exactly what `fetch_data` returns after any failure) and at a
status missing only `volume`. -/
theorem c1_update_raises_on_missing_keys :
    (Sync.update Sync.VlcState.init []).2 = some .typeError ∧
    (Sync.update Sync.VlcState.init []).1.media_position = none ∧
    (Sync.update Sync.VlcState.init []).1.media_duration = none ∧
    (Sync.update Sync.VlcState.init []).1.volume = none ∧
    (Sync.update Sync.VlcState.init []).1.muted = none ∧
    (Sync.update Sync.VlcState.init
      [("time", .str "1"), ("length", .str "2")]).2 = some .typeError ∧
    (Mp.update Mp.VlcState.init []).2 = some .typeError := by
  exact ⟨rfl, rfl, rfl, rfl, rfl, rfl, rfl⟩

/-- C2 counterexample: the claim says every raw state value is mapped to
one of Playing/Paused/Idle regardless of the entity's prior state.  In
the asynchronous variant an unrecognised value (here `"foo"`) leaves the
prior state in place, so the same raw status yields two different states
for two different prior states. -/
theorem c2_counterexample :
    (Mp.update { Mp.VlcState.init with state := some .playing } fooStatusMp).1.state
        = some .playing ∧
    (Mp.update { Mp.VlcState.init with state := some .paused } fooStatusMp).1.state
        = some .paused ∧
    (some HAState.playing ≠ some HAState.paused) := by
  refine ⟨rfl, rfl, by simp⟩

/-- C2 amended: the synchronous variant maps `"playing"` to Playing,
`"paused"` to Paused, and every other or absent value to Idle,
independently of the prior entity state; the asynchronous variant maps
`"playing"`, `"paused"` and `"stopped"` to Playing, Paused and Idle,
and leaves the prior state unchanged for any other or absent value. -/
theorem c2_state_mapping :
    (∀ (st₁ st₂ : Sync.VlcState) (status : Status),
        (Sync.update st₁ status).1.state = (Sync.update st₂ status).1.state) ∧
    (∀ st : Sync.VlcState,
        (Sync.update st [("state", .str "playing")]).1.state = some .playing) ∧
    (∀ st : Sync.VlcState,
        (Sync.update st [("state", .str "paused")]).1.state = some .paused) ∧
    (∀ st : Sync.VlcState,
        (Sync.update st [("state", .str "stopped")]).1.state = some .idle) ∧
    (∀ (st : Sync.VlcState) (s : String), s ≠ "playing" → s ≠ "paused" →
        (Sync.update st [("state", .str s)]).1.state = some .idle) ∧
    (∀ st : Sync.VlcState, (Sync.update st []).1.state = some .idle) ∧
    (∀ st : Mp.VlcState,
        (Mp.update st [("state", .str "playing")]).1.state = some .playing) ∧
    (∀ st : Mp.VlcState,
        (Mp.update st [("state", .str "paused")]).1.state = some .paused) ∧
    (∀ st : Mp.VlcState,
        (Mp.update st [("state", .str "stopped")]).1.state = some .idle) ∧
    (∀ (st : Mp.VlcState) (s : String),
        s ≠ "playing" → s ≠ "paused" → s ≠ "stopped" →
        (Mp.update st [("state", .str s)]).1.state = st.state) ∧
    (∀ st : Mp.VlcState, (Mp.update st []).1.state = st.state) := by
  refine ⟨?_, ?_, ?_, ?_, ?_, ?_, ?_, ?_, ?_, ?_, ?_⟩
  · intro st₁ st₂ status
    rw [sync_update_state, sync_update_state]
  · intro st; rw [sync_update_state]; rfl
  · intro st; rw [sync_update_state]; rfl
  · intro st; rw [sync_update_state]; rfl
  · intro st s h1 h2
    rw [sync_update_state]
    simp [syncStateOf, statusGet, isStrOpt, List.lookup, h1, h2]
  · intro st; rw [sync_update_state]; rfl
  · intro st; rw [mp_update_state]; rfl
  · intro st; rw [mp_update_state]; rfl
  · intro st; rw [mp_update_state]; rfl
  · intro st s h1 h2 h3
    rw [mp_update_state]
    simp [mpStateOf, statusGet, isStrOpt, List.lookup, h1, h2, h3]
  · intro st; rw [mp_update_state]; rfl

/-- C2 witness: the amended theorem applied at the concrete raw state
`"foo"`, discharging the inequality hypotheses. -/
theorem c2_state_mapping_witness :
    (Sync.update Sync.VlcState.init [("state", .str "foo")]).1.state = some .idle ∧
    (Mp.update Mp.VlcState.init [("state", .str "foo")]).1.state
        = Mp.VlcState.init.state := by
  exact ⟨c2_state_mapping.2.2.2.2.1 Sync.VlcState.init "foo" (by decide) (by decide),
         c2_state_mapping.2.2.2.2.2.2.2.2.2.1 Mp.VlcState.init "foo"
           (by decide) (by decide) (by decide)⟩

/-- C3: on every non-200 response, on a network exception, and on an
XML-parse failure, `fetch_data` returns the empty mapping; no exception
reaches the caller (the `except Exception` handler converts every
failure, including the `AttributeError` raised by the error-logging line
itself, into `return {}`). -/
theorem c3_fetch_failure_returns_empty :
    (∀ (code : Nat) (body : ParseOutcome), code ≠ 200 →
        fetch_data (.resp code body) = some (.dict [])) ∧
    fetch_data .exn = some (.dict []) ∧
    (∀ code : Nat, fetch_data (.resp code .malformed) = some (.dict [])) := by
  refine ⟨?_, rfl, ?_⟩
  · intro code body h
    simp [fetch_data, fetchTryBody, h]
  · intro code
    by_cases h : code = 200 <;> simp [fetch_data, fetchTryBody, h]

/-- C3 witness: the theorem applied at a concrete 404 response. -/
theorem c3_fetch_failure_witness :
    fetch_data (.resp 404 (.parsed demoStatus)) = some (.dict []) :=
  c3_fetch_failure_returns_empty.1 404 (.parsed demoStatus) (by decide)

/-- C4 counterexample: the claim says a 200 response whose parsed
document has no `root` key yields the empty mapping, never `None`.  The
code returns `xmltodict.parse(...).get("root")` unchecked, which is
Python `None` when the top-level key differs from `"root"`; the second
`try: return data` cannot catch anything. -/
theorem c4_counterexample :
    fetch_data (.resp 200 (.parsed [("node", .str "x")])) = none ∧
    fetch_data (.resp 200 (.parsed [("node", .str "x")]))
        ≠ some (.dict []) := by
  refine ⟨rfl, by simp [fetch_data, fetchTryBody, statusGet, List.lookup]⟩

/-- C4 amended: on a 200 response, `fetch_data` returns the value under
the parsed document's `root` key when that key is present, and Python
`None` (not the empty mapping) when it is absent; a parse failure still
yields the empty mapping, and no error is raised in either case. -/
theorem c4_success_returns_root :
    (∀ (doc : Status) (v : XVal), statusGet "root" doc = some v →
        fetch_data (.resp 200 (.parsed doc)) = some v) ∧
    (∀ doc : Status, statusGet "root" doc = none →
        fetch_data (.resp 200 (.parsed doc)) = none) ∧
    fetch_data (.resp 200 .malformed) = some (.dict []) := by
  refine ⟨?_, ?_, rfl⟩
  · intro doc v h
    simp [fetch_data, fetchTryBody, h]
  · intro doc h
    simp [fetch_data, fetchTryBody, h]

/-- C4 witness: the amended theorem applied to a document with a `root`
key and to one without. -/
theorem c4_success_returns_root_witness :
    fetch_data (.resp 200 (.parsed [("root", .str "x")])) = some (.str "x") ∧
    fetch_data (.resp 200 (.parsed [("other", .str "x")])) = none := by
  exact ⟨c4_success_returns_root.1 [("root", .str "x")] (.str "x") rfl,
         c4_success_returns_root.2.1 [("other", .str "x")] rfl⟩

/-- C5 counterexample: the claim says that after an update on a status
carrying a meta category with title `Song A` and artist `Artist B`, the
title and artist properties return those strings.  The update does store
the info list, but `media_title` reads the nonexistent attribute
`self._media` and therefore always returns `"None"` through its bare
`except`, and `media_artist` searches for `@name == "showName"` (not
`"artist"`), so it also returns `"None"` on this input. -/
theorem c5_counterexample :
    (Sync.update Sync.VlcState.init metaStatusDemo).1.media_metadata
        = metaInfoDemo ∧
    Sync.media_title (Sync.update Sync.VlcState.init metaStatusDemo).1
        = .str "None" ∧
    Sync.media_artist (Sync.update Sync.VlcState.init metaStatusDemo).1
        = .str "None" ∧
    XVal.str "None" ≠ XVal.str "Song A" ∧
    XVal.str "None" ≠ XVal.str "Artist B" := by
  refine ⟨rfl, rfl, rfl, by simp, by simp⟩

/-- C5 amended: `update` stores the meta category's info list, but the
title property always returns the literal string `"None"` (its `try`
body reads the missing attribute `_media`, so the bare `except` returns
the `filename` default), and the artist property returns the `#text` of
the entry whose `@name` is `"showName"` when one exists and `"None"`
otherwise; with no meta category present both properties return
`"None"`, and neither property ever raises. -/
theorem c5_metadata_properties :
    (∀ st : Sync.VlcState, Sync.media_title st = .str "None") ∧
    (Sync.update Sync.VlcState.init metaStatusDemo).1.media_metadata
        = metaInfoDemo ∧
    Sync.media_artist (Sync.update Sync.VlcState.init metaStatusDemo).1
        = .str "None" ∧
    Sync.media_artist { Sync.VlcState.init with
        media_metadata := .list [.dict [("@name", .str "showName"),
                                        ("#text", .str "Show X")]] }
        = .str "Show X" ∧
    Sync.media_title Sync.VlcState.init = .str "None" ∧
    Sync.media_artist Sync.VlcState.init = .str "None" ∧
    (Sync.update Sync.VlcState.init demoStatus).1.media_metadata = .dict [] ∧
    Sync.media_artist (Sync.update Sync.VlcState.init demoStatus).1
        = .str "None" := by
  exact ⟨fun st => rfl, rfl, rfl, rfl, rfl, rfl, rfl, rfl⟩

/-- C6: the claim says both variants build
`http://{host}:{port}/requests/status.xml`.  The synchronous variant's
template is `http://{}:{}/requests.status.xml` — a dot where the slash
before `status.xml` belongs — so every URL it builds differs from the
documented VLC endpoint; the asynchronous variant builds the claimed
URL for every host, port and optional command. -/
theorem c6_url_evaluation :
    Sync.fetchUrl "localhost" "8080" none
        = "http://localhost:8080/requests.status.xml" ∧
    Sync.fetchUrl "localhost" "8080" none
        ≠ "http://localhost:8080/requests/status.xml" ∧
    Sync.fetchUrl "localhost" "8080" (some "pl_pause")
        = "http://localhost:8080/requests.status.xml?command=pl_pause" ∧
    (∀ host port : String, Mp.fetchUrl host port none
        = "http://" ++ host ++ ":" ++ port ++ "/requests/status.xml") ∧
    (∀ host port c : String, Mp.fetchUrl host port (some c)
        = "http://" ++ host ++ ":" ++ port ++ "/requests/status.xml?command=" ++ c) := by
  exact ⟨rfl, by decide, rfl, fun host port => rfl, fun host port c => rfl⟩

/-- C7 counterexample: the claim says `set_volume(level)` issues
`volume&val={round(level*256)}`.  The code computes `int(volume * 256)`,
which truncates: at level 3/512 the product is 1.5, the code issues
`val=1`, while rounding gives 2. -/
theorem c7_counterexample :
    (Sync.set_volume_level Sync.VlcState.init (3/512)).2 = "volume&val=1" ∧
    round ((3/512 : ℚ) * 256) = 2 ∧
    (Sync.set_volume_level Sync.VlcState.init (3/512)).2
        ≠ "volume&val=" ++ toString (round ((3/512 : ℚ) * 256)) := by
  have h : pyTrunc ((3/512 : ℚ) * 256) = 1 := by norm_num [pyTrunc]
  have hr : round ((3/512 : ℚ) * 256) = 2 := by norm_num [round_eq]
  refine ⟨?_, hr, ?_⟩
  · show "volume&val=" ++ toString (pyTrunc ((3/512 : ℚ) * 256)) = "volume&val=1"
    rw [h]; rfl
  · show "volume&val=" ++ toString (pyTrunc ((3/512 : ℚ) * 256)) ≠ _
    rw [h, hr]
    decide

/-- C7 amended: `set_volume(level)` issues
`volume&val={int(level*256)}` where Python `int` truncates toward zero;
in particular `set_volume(0.5)` issues `val=128`, `mute(true)` issues
`val=0`, and `mute(false)` issues `val=256`. -/
theorem c7_volume_commands :
    (∀ (st : Sync.VlcState) (l : ℚ),
        (Sync.set_volume_level st l).2
            = "volume&val=" ++ toString (pyTrunc (l * 256))) ∧
    (∀ st : Sync.VlcState,
        (Sync.set_volume_level st (1/2)).2 = "volume&val=128") ∧
    (∀ st : Sync.VlcState, (Sync.mute_volume st true).2 = "volume&val=0") ∧
    (∀ st : Sync.VlcState, (Sync.mute_volume st false).2 = "volume&val=256") := by
  have h : pyTrunc ((1/2 : ℚ) * 256) = 128 := by norm_num [pyTrunc]
  refine ⟨fun st l => rfl, fun st => ?_, fun st => rfl, fun st => rfl⟩
  show "volume&val=" ++ toString (pyTrunc ((1/2 : ℚ) * 256)) = "volume&val=128"
  rw [h]; rfl

/-- C8 counterexample: the claim says the invariant
`muted ⇔ volume == 0` is preserved by every operation, including the
optimistic updates.  After an update with raw volume 128 the entity has
volume 1/2 and muted false; `mute_volume(True)` then sets muted to true
without touching the volume, leaving muted true while volume 1/2 ≠ 0. -/
theorem c8_counterexample :
    demoUpdated.muted = some false ∧
    demoUpdated.volume = some (((128 : ℤ) : ℚ) / 256) ∧
    (Sync.mute_volume demoUpdated true).1.muted = some true ∧
    (Sync.mute_volume demoUpdated true).1.volume
        = some (((128 : ℤ) : ℚ) / 256) ∧
    ((128 : ℤ) : ℚ) / 256 ≠ 0 := by
  refine ⟨rfl, rfl, rfl, rfl, by norm_num⟩

/-- C8 amended: the invariant holds at the end of every completed
update — the normalized volume is raw volume / 256 and muted is exactly
`raw volume == 0` — but it is not preserved by the optimistic command
updates: `mute_volume` changes only the muted flag and
`set_volume_level` changes only the volume, so the equivalence
`muted ⇔ volume == 0` can be broken until the next poll. -/
theorem c8_volume_invariant :
    (∀ (st : Sync.VlcState) (status : Status) (v : ℤ),
        pyInt (statusGet "volume" status) = .ok v →
        (Sync.update st status).2 = none →
        (Sync.update st status).1.volume = some ((v : ℚ) / 256) ∧
        (Sync.update st status).1.muted = some (v == 0)) ∧
    (∀ (st : Sync.VlcState) (m : Bool),
        (Sync.mute_volume st m).1.volume = st.volume) ∧
    (∀ (st : Sync.VlcState) (l : ℚ),
        (Sync.set_volume_level st l).1.muted = st.muted) := by
  refine ⟨?_, fun st m => rfl, fun st l => rfl⟩
  intro st status v hv hdone
  unfold Sync.update at hdone ⊢
  cases h1 : pyInt (statusGet "time" status) with
  | error e => rw [h1] at hdone; exact absurd hdone (by simp)
  | ok t =>
    cases h2 : pyInt (statusGet "length" status) with
    | error e => rw [h1, h2] at hdone; exact absurd hdone (by simp)
    | ok l =>
      cases h3 : pyInt (statusGet "volume" status) with
      | error e => rw [h1, h2, h3] at hdone; exact absurd hdone (by simp)
      | ok v' =>
        have hv' : v' = v := by
          rw [hv] at h3
          exact (Except.ok.inj h3).symm
        subst hv'
        exact ⟨rfl, rfl⟩

/-- C8 witness: the invariant component of the amended theorem applied
to a completed update with raw volume 128. -/
theorem c8_volume_invariant_witness :
    (Sync.update Sync.VlcState.init demoStatus).1.volume
        = some (((128 : ℤ) : ℚ) / 256) ∧
    (Sync.update Sync.VlcState.init demoStatus).1.muted
        = some ((128 : ℤ) == 0) :=
  c8_volume_invariant.1 Sync.VlcState.init demoStatus 128 rfl rfl

/-- C9: every control command is optimistic: immediately after issuing
it, reading the corresponding property returns the updated value, with
no poll in between — in both revisions. -/
theorem c9_optimistic_reads :
    ∀ (st : Sync.VlcState) (stM : Mp.VlcState) (l : ℚ) (m : Bool),
      (Sync.media_play st).1.state = some .playing ∧
      (Sync.media_pause st).1.state = some .paused ∧
      (Sync.media_stop st).1.state = some .idle ∧
      (Sync.set_volume_level st l).1.volume = some l ∧
      (Sync.mute_volume st m).1.muted = some m ∧
      (Mp.media_play stM).1.state = some .playing ∧
      (Mp.media_pause stM).1.state = some .paused ∧
      (Mp.media_stop stM).1.state = some .idle := by
  intro st stM l m
  exact ⟨rfl, rfl, rfl, rfl, rfl, rfl, rfl, rfl⟩

/-- C10: each optimistic command updates exactly one field of the
normalized state and leaves every other field unchanged, stated as a
record-update equality for every command of both revisions; in
particular position, duration and metadata are untouched. -/
theorem c10_frame_effects :
    ∀ (st : Sync.VlcState) (stM : Mp.VlcState) (l : ℚ) (m : Bool),
      (Sync.mute_volume st m).1 = { st with muted := some m } ∧
      (Sync.set_volume_level st l).1 = { st with volume := some l } ∧
      (Sync.media_play st).1 = { st with state := some .playing } ∧
      (Sync.media_pause st).1 = { st with state := some .paused } ∧
      (Sync.media_stop st).1 = { st with state := some .idle } ∧
      (Mp.media_play stM).1 = { stM with state := some .playing } ∧
      (Mp.media_pause stM).1 = { stM with state := some .paused } ∧
      (Mp.media_stop stM).1 = { stM with state := some .idle } ∧
      (Sync.mute_volume st m).1.media_position = st.media_position ∧
      (Sync.mute_volume st m).1.media_duration = st.media_duration ∧
      (Sync.mute_volume st m).1.media_metadata = st.media_metadata ∧
      (Sync.set_volume_level st l).1.media_position = st.media_position ∧
      (Sync.media_pause st).1.media_metadata = st.media_metadata := by
  intro st stM l m
  exact ⟨rfl, rfl, rfl, rfl, rfl, rfl, rfl, rfl, rfl, rfl, rfl, rfl, rfl⟩

end VlcRemote
